import Mathlib

/-!
Shallow embedding of the Bloom's-taxonomy Cognitive-Level Classifier from
`src/app/routes_vialli.py` (function `analyze_question_blooms_level` and its
helpers).  Python floats are modelled by `ℚ`: all constants of the classifier
are small decimal literals and the claims checked here never depend on ties at
the third decimal, so exact rational arithmetic agrees with IEEE doubles on
every comparison performed.  Strings are modelled by `String` / `List Char`
with ASCII case folding (the classifier's keyword tables are all ASCII).
-/

attribute [local semireducible] Rat.mul Rat.add Rat.sub Rat.inv Rat.ofScientific

set_option maxRecDepth 100000

namespace Blooms

/-- Python `\w` word character (ASCII fragment): letters, digits, underscore. -/
def isWordChar (c : Char) : Bool := c.isAlphanum || c = '_'

/-- ASCII whitespace recognised by Python `str.split` / `str.strip` / `\s`. -/
def isSpaceChar (c : Char) : Bool :=
  c = ' ' || c = '\t' || c = '\n' || c = '\r' || c = '\x0b' || c = '\x0c'

/-- ASCII lower-casing of a character, as done by `str.lower()` on the
classifier's ASCII inputs. -/
def lowerChar (c : Char) : Char :=
  if 'A' ≤ c && c ≤ 'Z' then Char.ofNat (c.toNat + 32) else c

/-- `str.lower()` over a character list. -/
def lowerStr (s : List Char) : List Char := s.map lowerChar

/-- `str.strip()`: remove leading and trailing whitespace. -/
def pyStrip (s : List Char) : List Char :=
  ((s.dropWhile isSpaceChar).reverse.dropWhile isSpaceChar).reverse

/-- Helper for `pySplit`: accumulates the current word (reversed). -/
def splitWsAux : List Char → List Char → List (List Char)
  | [], acc => if acc.isEmpty then [] else [acc.reverse]
  | c :: rest, acc =>
    if isSpaceChar c then
      if acc.isEmpty then splitWsAux rest [] else acc.reverse :: splitWsAux rest []
    else splitWsAux rest (c :: acc)

/-- Python `str.split()` with no argument: split on whitespace runs,
discarding empty fields. -/
def pySplit (s : List Char) : List (List Char) := splitWsAux s []

/-- Substring containment, Python's `needle in hay` for strings. -/
def containsSub : List Char → List Char → Bool
  | hay, needle =>
    if needle.isPrefixOf hay then true
    else
      match hay with
      | [] => false
      | _ :: t => containsSub t needle

/-- No word character on the left of a match position (string start or a
non-word character), i.e. the `\b` condition before a word-char token. -/
def boundaryBefore : Option Char → Bool
  | none => true
  | some c => !isWordChar c

/-- The `\b` condition after a token that ends in a word character. -/
def boundaryAfter : List Char → Bool
  | [] => true
  | c :: _ => !isWordChar c

/-- Helper for `wbSearch`, carrying the character preceding the current
position. -/
def wbSearchAux (kw : List Char) : Option Char → List Char → Bool
  | prev, hay =>
    (boundaryBefore prev && kw.isPrefixOf hay && boundaryAfter (hay.drop kw.length)) ||
    match hay with
    | [] => false
    | c :: t => wbSearchAux kw (some c) t

/-- `re.search(r'\b' + re.escape(kw) + r'\b', s)`: the keyword occurs in `s`
delimited by word boundaries.  All keywords of the classifier start and end
with word characters, for which `\b` means exactly these side conditions. -/
def wbSearch (s kw : List Char) : Bool := wbSearchAux kw none s

/-! ### A small regular-expression engine

The classifier's `question_patterns` and `doc_references` tables use only
literal text, groups of alternatives `(a|b|…)`, the wildcard `(.*)`, and the
start anchor `^`.  They are embedded as values of `Rx` below and matched with
Brzozowski derivatives, which implements exactly `re.search` semantics for
this fragment (Python `.` does not match a newline). -/

inductive Rx : Type
  | fail : Rx
  | eps : Rx
  | lit : Char → Rx
  | dot : Rx
  | alt : Rx → Rx → Rx
  | cat : Rx → Rx → Rx
  | star : Rx → Rx
deriving DecidableEq, Repr

/-- Smart alternation (keeps derivative terms small, same language). -/
def ralt : Rx → Rx → Rx
  | Rx.fail, b => b
  | a, Rx.fail => a
  | a, b => Rx.alt a b

/-- Smart concatenation (keeps derivative terms small, same language). -/
def rcat : Rx → Rx → Rx
  | Rx.fail, _ => Rx.fail
  | _, Rx.fail => Rx.fail
  | Rx.eps, b => b
  | a, Rx.eps => a
  | a, b => Rx.cat a b

/-- Does the regex accept the empty string? -/
def nullable : Rx → Bool
  | Rx.fail => false
  | Rx.eps => true
  | Rx.lit _ => false
  | Rx.dot => false
  | Rx.alt a b => nullable a || nullable b
  | Rx.cat a b => nullable a && nullable b
  | Rx.star _ => true

/-- Brzozowski derivative by one character. -/
def rderiv : Rx → Char → Rx
  | Rx.fail, _ => Rx.fail
  | Rx.eps, _ => Rx.fail
  | Rx.lit c, d => if c = d then Rx.eps else Rx.fail
  | Rx.dot, d => if d = '\n' then Rx.fail else Rx.eps
  | Rx.alt a b, d => ralt (rderiv a d) (rderiv b d)
  | Rx.cat a b, d =>
    if nullable a then ralt (rcat (rderiv a d) b) (rderiv b d)
    else rcat (rderiv a d) b
  | Rx.star a, d => rcat (rderiv a d) (Rx.star a)

/-- Some prefix of the input (possibly empty) matches the regex. -/
def matchesPre : Rx → List Char → Bool
  | Rx.fail, _ => false
  | r, [] => nullable r
  | r, c :: rest => nullable r || matchesPre (rderiv r c) rest

/-- Some prefix of some suffix of the input matches: unanchored search. -/
def rsearch : Rx → List Char → Bool
  | r, s =>
    matchesPre r s ||
    match s with
    | [] => false
    | _ :: t => rsearch r t

/-- A compiled pattern: `anchored` reflects a leading `^` in the Python
regex literal. -/
structure Pat : Type where
  anchored : Bool
  rx : Rx
deriving Repr

/-- `re.search(pattern, s)` for the pattern fragment used by the classifier:
a pattern with a leading `^` must match at the start, otherwise it may match
at any position. -/
def pySearch (p : Pat) (s : List Char) : Bool :=
  if p.anchored then matchesPre p.rx s else rsearch p.rx s

/-- Regex for a literal string. -/
def rstr (s : String) : Rx := s.data.foldr (fun c r => rcat (Rx.lit c) r) Rx.eps

/-- Regex for a group of literal alternatives `(a|b|…)`. -/
def rgrp (l : List String) : Rx := (l.map rstr).foldr ralt Rx.fail

/-- Regex for `(.*)` (any characters except newline). -/
def rany : Rx := Rx.star Rx.dot

/-- Regex for a group `(a|…|.*)` whose last alternative is `.*`. -/
def rgrpDot (l : List String) : Rx := Rx.alt ((l.map rstr).foldr ralt Rx.fail) rany

/-- Concatenation of a list of regex pieces. -/
def rseq (l : List Rx) : Rx := l.foldr rcat Rx.eps

/-- Unanchored pattern. -/
def pat (l : List Rx) : Pat := { anchored := false, rx := rseq l }

/-- Anchored (`^…`) pattern. -/
def apat (l : List Rx) : Pat := { anchored := true, rx := rseq l }

/-! ### Data model -/

/-- The six Bloom levels, in the enumeration (and Python dict insertion)
order Remembering → Creating. -/
inductive CognitiveLevel : Type
  | Remembering
  | Understanding
  | Applying
  | Analyzing
  | Evaluating
  | Creating
deriving DecidableEq, Repr

open CognitiveLevel in
/-- The dict key order of `blooms_processes`. -/
def CognitiveLevel.all : List CognitiveLevel :=
  [Remembering, Understanding, Applying, Analyzing, Evaluating, Creating]

/-- The string key used for the level in the Python dicts. -/
def levelName : CognitiveLevel → String
  | .Remembering => "Remembering"
  | .Understanding => "Understanding"
  | .Applying => "Applying"
  | .Analyzing => "Analyzing"
  | .Evaluating => "Evaluating"
  | .Creating => "Creating"

/-- One row of the `blooms_processes` registry. -/
structure LevelData : Type where
  keywords : List String
  question_patterns : List Pat
  verbs : List String
  weight : ℚ
  complexity_threshold : ℚ

/-- The `blooms_processes` registry (routes_vialli.py lines 294-430),
transcribed row by row.  Regex literals are spelled with the `rstr` / `rgrp`
/ `rany` combinators: e.g. `^what is the (name|value|date|capital|definition)`
becomes `apat [rstr "what is the ", rgrp [...]]`. -/
def blooms_processes : CognitiveLevel → LevelData
  | .Remembering =>
    { keywords := ["recall", "list", "define", "identify", "name", "state",
        "recognize", "select", "match", "memorize", "what is the",
        "what are the", "who was", "when did", "where is"]
      question_patterns :=
        [apat [rstr "what is the ", rgrp ["name", "value", "date", "capital", "definition"]],
         apat [rstr "what are the ", rgrp ["three", "four", "key"], rstr " ",
               rgrp ["steps", "parts", "types"]],
         apat [rstr "who ", rgrp ["is", "was"], rstr " ", rgrp ["the", "a"]],
         apat [rstr "when did ", rgrpDot ["the"], rstr " ", rgrp ["happen", "occur", "start"]],
         apat [rstr "where is ", rgrpDot ["the"], rstr " ", rgrp ["located", "found"]],
         apat [rstr "name ", rgrp ["all", "the", "three"]],
         apat [rstr "list ", rgrp ["the", "all", "three"]],
         apat [rstr "define"],
         apat [rstr "what was the ", rgrp ["first", "last", "result"]]]
      verbs := ["is", "are", "was", "were", "did", "does", "has", "have"]
      weight := 1.0
      complexity_threshold := 0.2 }
  | .Understanding =>
    { keywords := ["explain", "summarize", "interpret", "paraphrase", "classify",
        "describe", "discuss", "restate", "translate", "outline", "main idea",
        "in your own words", "difference between"]
      question_patterns :=
        [pat [rstr "explain ", rgrp ["why", "how"]],
         pat [rstr "summarize"],
         pat [rstr "what does ", rany, rstr " mean"],
         pat [rstr "in your own words"],
         pat [rstr "how would you describe"],
         pat [rstr "what is the main idea"],
         pat [rstr "what is the purpose of"],
         pat [rstr "give an example of"],
         pat [rstr "what can you infer from"],
         pat [rstr "how does ", rany, rstr " work"],
         pat [rstr "how ", rany, rstr " works"],
         pat [rstr "why is ", rany, rstr " important"],
         pat [rstr "how would you explain ", rany],
         pat [rstr "what happens when"],
         pat [rstr "what is the difference between"],
         pat [rstr "what are the differences between"],
         pat [rstr "distinguish between"],
         pat [rstr "how is ", rany, rstr " different from"]]
      verbs := ["explain", "describe", "summarize", "interpret", "discuss",
        "paraphrase", "distinguish", "breakdown"]
      weight := 1.2
      complexity_threshold := 0.4 }
  | .Applying =>
    { keywords := ["use", "apply", "implement", "solve", "demonstrate", "show how",
        "employ", "illustrate", "execute", "calculate", "model"]
      question_patterns :=
        [pat [rstr "how would you use ", rany, rstr " to"],
         pat [rstr "what would happen if"],
         pat [rstr "how would you solve ", rgrp ["this", "the following"], rstr " problem"],
         pat [rstr "demonstrate how ", rgrp ["to", "you"]],
         pat [rstr "apply ", rgrp ["the", "this"], rstr " ",
              rgrp ["principle", "rule", "law"], rstr " ", rgrp ["to", "for"]],
         pat [rstr "solve for"],
         pat [rstr "use ", rany, rstr " to ", rgrp ["show", "demonstrate", "solve"]],
         pat [rstr "calculate the"],
         pat [rstr "perform ", rgrp ["the", "a"], rstr " ",
              rgrp ["calculation", "procedure", "experiment"]],
         pat [rstr "carry out ", rgrp ["the", "this"], rstr " ", rgrp ["task", "process"]]]
      verbs := ["use", "apply", "solve", "demonstrate", "implement", "calculate"]
      weight := 1.3
      complexity_threshold := 0.5 }
  | .Analyzing =>
    { keywords := ["analyze", "compare", "contrast", "differentiate", "examine",
        "investigate", "categorize", "organize", "deduce", "distinguish",
        "relationship", "cause", "effect", "similarities between"]
      question_patterns :=
        [pat [rstr "what are the similarities between"],
         pat [rstr "compare and contrast"],
         pat [rstr "analyze ", rgrp ["how", "why"]],
         pat [rstr "why do you think"],
         pat [rstr "what evidence supports"],
         pat [rstr "how is ", rany, rstr " related to"],
         pat [rstr "what factors contribute to"],
         pat [rstr "break down"],
         pat [rstr "examine the causes of"],
         pat [rstr "what is the relationship between"],
         pat [rstr "why is ", rany, rstr " different from"],
         pat [rstr "how would you categorize ", rany],
         pat [rstr "what components make up ", rany],
         pat [rstr "what is the underlying cause of"],
         pat [rstr "how does ", rany, rstr " influence ", rany],
         pat [rstr "what assumptions underlie ", rany]]
      verbs := ["analyze", "compare", "contrast", "examine", "investigate",
        "categorize", "differentiate"]
      weight := 1.4
      complexity_threshold := 0.7 }
  | .Evaluating =>
    { keywords := ["evaluate", "judge", "critique", "justify", "defend", "argue",
        "assess", "rate", "recommend", "appraise", "prioritize", "opinion",
        "do you agree"]
      question_patterns :=
        [pat [rstr "do you agree ", rgrp ["with", "that"]],
         pat [rstr "what is your opinion ", rgrp ["on", "about"]],
         pat [rstr "how effective ", rgrp ["is", "was"]],
         pat [rstr "justify your ", rgrp ["answer", "position"]],
         pat [rstr "defend your ", rgrp ["position", "argument"]],
         pat [rstr "critique ", rgrp ["the", "this"]],
         pat [rstr "evaluate ", rgrp ["the", "this"], rstr " ", rgrp ["decision", "method"]],
         pat [rstr "which is ", rgrp ["better", "more effective"]],
         pat [rstr "what would you recommend"],
         pat [rstr "assess the ", rgrp ["value", "validity"]],
         pat [rstr "rate the importance of"],
         pat [rstr "which option ", rgrp ["is", "would be"], rstr " best"],
         pat [rstr "how would you improve ", rany],
         pat [rstr "do the benefits outweigh the risks"]]
      verbs := ["evaluate", "judge", "critique", "justify", "defend", "assess",
        "recommend"]
      weight := 1.5
      complexity_threshold := 0.8 }
  | .Creating =>
    { keywords := ["create", "design", "develop", "generate", "produce",
        "hypothesize", "plan", "construct", "invent", "compose", "formulate",
        "propose", "what if"]
      question_patterns :=
        [pat [rstr "how would you design"],
         pat [rstr "what would you create"],
         pat [rstr "can you propose ", rgrp ["an", "a"]],
         pat [rstr "develop a ", rgrp ["plan", "model", "solution"]],
         pat [rstr "create a ", rgrp ["solution", "product", "story"]],
         pat [rstr "hypothesize what would happen if"],
         pat [rstr "design ", rgrp ["a", "an"]],
         pat [rstr "invent ", rgrp ["a", "an"]],
         pat [rstr "compose ", rgrp ["a", "an"]],
         pat [rstr "formulate a ", rgrp ["theory", "plan"]],
         pat [rstr "what if you could"],
         pat [rstr "how would you modify ", rany, rstr " to"],
         pat [rstr "what new ", rgrp ["method", "model", "idea"], rstr " could"],
         pat [rstr "develop an alternative to ", rany]]
      verbs := ["create", "design", "develop", "propose", "invent", "hypothesize",
        "construct"]
      weight := 1.6
      complexity_threshold := 0.9 }

/-- The per-call `level_scores` dict: it always holds exactly the six levels,
in enumeration order, so it is embedded as a six-field record. -/
structure ScoreMap : Type where
  remembering : ℚ
  understanding : ℚ
  applying : ℚ
  analyzing : ℚ
  evaluating : ℚ
  creating : ℚ
deriving DecidableEq, Repr

/-- Value of the score dict at a level. -/
def ScoreMap.get (s : ScoreMap) : CognitiveLevel → ℚ
  | .Remembering => s.remembering
  | .Understanding => s.understanding
  | .Applying => s.applying
  | .Analyzing => s.analyzing
  | .Evaluating => s.evaluating
  | .Creating => s.creating

/-- `dict.values()` in insertion order. -/
def ScoreMap.values (s : ScoreMap) : List ℚ :=
  [s.remembering, s.understanding, s.applying, s.analyzing, s.evaluating, s.creating]

/-- The result record returned by `analyze_question_blooms_level`.  The
`scores` field is the Python dict `{level: round(score, 2)}`, kept as an
association list in insertion order (it is empty on the failure path). -/
structure ClassificationResult : Type where
  matches_level : Bool
  confidence : ℚ
  actual_level : String
  explanation : String
  scores : List (String × ℚ)
deriving DecidableEq, Repr

/-- Python truthiness of the optional `document_text` argument: present and
non-empty. -/
def docTruthy : Option String → Bool
  | none => false
  | some d => !(d == "")

/-- Python `round(x, 2)`, modelled as rounding to the nearest multiple of
1/100.  (The claims checked in this file never evaluate `round` at an exact
.005 tie, so the tie-breaking direction is immaterial.) -/
def pyRound2 (q : ℚ) : ℚ := (⌊q * 100 + 1 / 2⌋ : ℚ) / 100

/-- Python two-argument `max` (first argument wins ties), written with a
decidable test so that it evaluates inside the kernel. -/
def pyMax (a b : ℚ) : ℚ := if b ≤ a then a else b

/-- Python two-argument `min` (first argument wins ties), written with a
decidable test so that it evaluates inside the kernel. -/
def pyMin (a b : ℚ) : ℚ := if a ≤ b then a else b

/-- The \`doc_references\` pattern table of `_analyze_document_context`
(routes_vialli.py lines 522-530). -/
def doc_references : List Pat :=
  [pat [rstr "according to ", rgrp ["the", "this"], rstr " ",
        rgrp ["text", "document", "passage", "reading", "author"]],
   pat [rstr "based on ", rgrp ["the", "this"], rstr " ",
        rgrp ["text", "document", "passage", "reading"]],
   pat [rstr "from the ", rgrp ["text", "document", "passage", "reading"]],
   pat [rstr "as described in"],
   pat [rstr "as stated in"],
   pat [rstr "the ", rgrp ["text", "document", "passage", "reading"], rstr " ",
        rgrp ["says", "states", "describes", "implies"]],
   pat [rstr "what evidence in the text"]]

/-- The loop over `doc_references`: does any citation pattern match the
lowercased question? -/
def citationHit (question_text : String) : Bool :=
  doc_references.any (fun p => pySearch p (lowerStr question_text.data))

/-- `re.findall(r'\b([A-Z][a-z]+|[0-9]+)\b', question_text)`: collect the
word-boundary-delimited tokens that are either a capital letter followed by
lowercase letters, or a digit run.  Every such match is a maximal word-char
run flanked by non-word characters (or the string ends), so matches cannot
overlap and scanning every position yields exactly `findall`'s matches. -/
def entityScan : Option Char → List Char → List (List Char)
  | _, [] => []
  | prev, c :: rest =>
    let here : List (List Char) :=
      if boundaryBefore prev then
        if 'A' ≤ c && c ≤ 'Z' then
          let run := rest.takeWhile (fun d => 'a' ≤ d && d ≤ 'z')
          let after := rest.dropWhile (fun d => 'a' ≤ d && d ≤ 'z')
          if !run.isEmpty && boundaryAfter after then [c :: run] else []
        else if '0' ≤ c && c ≤ '9' then
          let run := rest.takeWhile (fun d => '0' ≤ d && d ≤ '9')
          let after := rest.dropWhile (fun d => '0' ≤ d && d ≤ '9')
          if boundaryAfter after then [c :: run] else []
        else []
      else []
    here ++ entityScan (some c) rest

/-- `_analyze_document_context` (routes_vialli.py lines 513-551).  The
`document_text` parameter receives the already lowercased document, as at the
call site on line 465. -/
def analyze_document_context (question_text : String) (document_text : List Char)
    (level : CognitiveLevel) : ℚ :=
  let question_lower := lowerStr question_text.data
  let refScore : ℚ :=
    if doc_references.any (fun p => pySearch p question_lower) then
      if level = .Analyzing ∨ level = .Evaluating then 2.5 else 1.0
    else 0
  let createScore : ℚ :=
    if level = .Creating then
      if !document_text.isEmpty &&
          (containsSub question_lower ("create a new".data) ||
           containsSub question_lower ("design an alternative".data)) then
        if (entityScan none question_text.data).any
            (fun term => containsSub document_text (lowerStr term)) then 1.5
        else 0
      else 0
    else 0
  refScore + createScore

/-- Subordinating-conjunction markers (routes_vialli.py line 564). -/
def subordinatingWords : List String :=
  ["because", "although", "while", "if", "when", "unless", "since"]

/-- Coordination/transition markers (routes_vialli.py line 565). -/
def coordinatingWords : List String :=
  ["and", "but", "or", "however", "therefore", "thus"]

/-- Modal/conditional markers (routes_vialli.py line 566). -/
def conditionalWords : List String :=
  ["would", "could", "might", "should"]

/-- `has_subordination`: any marker occurs as a plain substring of the
lowercased question (`word in question_text.lower()`). -/
def hasSubordination (question_text : String) : Bool :=
  subordinatingWords.any (fun w => containsSub (lowerStr question_text.data) w.data)

/-- `has_coordination`: substring containment, as above. -/
def hasCoordination (question_text : String) : Bool :=
  coordinatingWords.any (fun w => containsSub (lowerStr question_text.data) w.data)

/-- `has_conditionals`: substring containment, as above. -/
def hasConditionals (question_text : String) : Bool :=
  conditionalWords.any (fun w => containsSub (lowerStr question_text.data) w.data)

/-- `structural_complexity` (routes_vialli.py lines 568-570). -/
def structuralComplexity (question_text : String) : ℚ :=
  (if hasSubordination question_text then 0.4 else 0.1) +
  (if hasCoordination question_text then 0.2 else 0) +
  (if hasConditionals question_text then 0.2 else 0)

/-- `_analyze_question_complexity` (routes_vialli.py lines 553-581); the
`level` argument is unused by the source body, only its threshold matters. -/
def analyze_question_complexity (question_text : String) (_level : CognitiveLevel)
    (threshold : ℚ) : ℚ :=
  let word_count : ℚ := ((pySplit question_text.data).length : ℚ)
  let sentence_complexity := pyMin (word_count / 10) 1
  let total_complexity := (sentence_complexity + structuralComplexity question_text) / 2
  if total_complexity ≥ threshold then 0.8
  else if total_complexity < threshold - 0.2 then -0.8
  else 0

/-- The clean form of the question: lowercase, punctuation replaced by
spaces, whitespace collapsed, stripped (routes_vialli.py lines 436-437). -/
def cleanForm (question_lower : List Char) : List Char :=
  let replaced := question_lower.map
    (fun c => if isWordChar c || isSpaceChar c then c else ' ')
  List.intercalate [' '] (pySplit replaced)

/-- The per-level score loop body (routes_vialli.py lines 441-475): keyword,
pattern, leading-verb, document-context and complexity signals, floored at 0. -/
def scoreLevel (document_text : Option String) (question_text : String)
    (level : CognitiveLevel) : ℚ :=
  let question_lower := pyStrip (lowerStr question_text.data)
  let document_lower :=
    if docTruthy document_text then lowerStr (document_text.getD "").data else []
  let question_clean := cleanForm question_lower
  let data := blooms_processes level
  let kwScore : ℚ :=
    (data.keywords.map
      (fun kw => if wbSearch question_clean kw.data then 1.5 * data.weight else 0)).sum
  let patScore : ℚ :=
    (data.question_patterns.map
      (fun p => if pySearch p question_lower then 2.0 * data.weight else 0)).sum
  let verbScore : ℚ :=
    if ((pySplit question_clean).take 3).any
        (fun w => data.verbs.any (fun v => v.data == w)) then 1.0 * data.weight
    else 0
  let docScore : ℚ :=
    if docTruthy document_text then
      let ds := analyze_document_context question_text document_lower level
      if level = .Applying ∨ level = .Analyzing ∨ level = .Evaluating ∨
          level = .Creating then ds * 1.5
      else ds
    else 0
  let complexity_score :=
    analyze_question_complexity question_text level data.complexity_threshold
  pyMax (kwScore + patScore + verbScore + docScore + complexity_score) 0

/-- The regex `^what (did|happened)` of the first special-case rule. -/
def whatDidPat : Pat := apat [rstr "what ", rgrp ["did", "happened"]]

/-- Special-case rule 1 (routes_vialli.py lines 590-593), with the loop over
the five non-Remembering levels unrolled. -/
def specialRule1 (question_lower : List Char) (s : ScoreMap) : ScoreMap :=
  if pySearch whatDidPat question_lower then
    let s := { s with remembering := s.remembering + 2.5 }
    let s := { s with understanding := pyMax (s.understanding - 1.5) 0 }
    let s := { s with applying := pyMax (s.applying - 1.5) 0 }
    let s := { s with analyzing := pyMax (s.analyzing - 1.5) 0 }
    let s := { s with evaluating := pyMax (s.evaluating - 1.5) 0 }
    let s := { s with creating := pyMax (s.creating - 1.5) 0 }
    s
  else s

/-- Special-case rule 2, the `how ` branches (routes_vialli.py lines 596-604). -/
def specialRuleHow (question_lower : List Char) (s : ScoreMap) : ScoreMap :=
  if ("how ".data).isPrefixOf question_lower then
    if containsSub question_lower ("how to".data) then
      { s with applying := s.applying + 1.5 }
    else if containsSub question_lower ("how would".data) ||
        containsSub question_lower ("how could".data) then
      { s with applying := s.applying + 1.0, creating := s.creating + 1.0 }
    else if containsSub question_lower ("how does".data) ||
        containsSub question_lower ("how did".data) then
      { s with understanding := s.understanding + 1.0, analyzing := s.analyzing + 0.5 }
    else s
  else s

/-- Special-case rule 3, the `why ` rule (routes_vialli.py lines 607-609). -/
def specialRuleWhy (question_lower : List Char) (s : ScoreMap) : ScoreMap :=
  if ("why ".data).isPrefixOf question_lower then
    { s with understanding := s.understanding + 1.0, analyzing := s.analyzing + 1.5 }
  else s

/-- `_handle_special_cases` (routes_vialli.py lines 583-611).  Note the
function lowercases the raw question without stripping it. -/
def handle_special_cases (question_text : String) (s : ScoreMap) : ScoreMap :=
  let question_lower := lowerStr question_text.data
  specialRuleWhy question_lower (specialRuleHow question_lower (specialRule1 question_lower s))

/-- `max(level_scores.values())`: maximum of a nonempty list, first element
as the initial accumulator. -/
def maxQ : List ℚ → ℚ
  | [] => 0
  | h :: t => t.foldl pyMax h

/-- `max(level_scores, key=level_scores.get)`: iterate the keys in insertion
order keeping the first key whose value is strictly greater than the current
best, i.e. the first key attaining the maximum. -/
def argmaxPy (s : ScoreMap) : CognitiveLevel :=
  [CognitiveLevel.Understanding, .Applying, .Analyzing, .Evaluating, .Creating].foldl
    (fun best l => if s.get best < s.get l then l else best) .Remembering

/-- `_determine_level_with_confidence` (routes_vialli.py lines 613-635).
The dict always has the six keys, so the `not level_scores` emptiness test of
line 617 is identically false and only the zero-sum test remains. -/
def determine_level_with_confidence (s : ScoreMap) : CognitiveLevel × ℚ :=
  if s.values.sum = 0 then (.Remembering, 0.5)
  else
    let max_score := maxQ s.values
    let detected_level := argmaxPy s
    let total_score := s.values.sum
    if total_score = 0 then (detected_level, 0.5)
    else
      let confidence := max_score / total_score
      let sorted_scores := s.values.insertionSort (· ≥ ·)
      match sorted_scores with
      | s0 :: s1 :: _ =>
        let score_gap := s0 - s1
        let gap_ratio := score_gap / pyMax 1 s0
        (detected_level, pyMin (confidence + gap_ratio * 0.3) 0.95)
      | _ => (detected_level, confidence)

/-- `_validate_classification` (routes_vialli.py lines 637-660). -/
def validate_classification (confidence : ℚ) (question_text : String)
    (detected_level : CognitiveLevel) (document_text : Option String) : ℚ :=
  let word_count := (pySplit question_text.data).length
  let c1 := if word_count < 4 then confidence * 0.7 else confidence
  let c2 := if word_count > 15 then pyMin (c1 * 1.1) 0.95 else c1
  let c3 := if containsSub question_text.data ("?".data) then pyMin (c2 * 1.05) 0.95 else c2
  let c4 := if detected_level ≠ .Remembering ∧ word_count > 8 then pyMin (c3 * 1.1) 0.95 else c3
  let c5 := if docTruthy document_text ∧ (document_text.getD "").length > 100 then
      pyMin (c4 * 1.05) 0.95
    else c4
  pyMax 0.1 (pyMin c5 0.95)

/-- A single-quote character as a string (used inside generated text). -/
def sq : String := String.singleton (Char.ofNat 39)

/-- Python `f"{x:.1f}"` for the non-negative rationals produced by the
classifier: one decimal digit. -/
def fmt1 (q : ℚ) : String :=
  let n := (⌊q * 10 + 1 / 2⌋).toNat
  toString (n / 10) ++ "." ++ toString (n % 10)

/-- `_get_classification_reasoning` (routes_vialli.py lines 684-736; the
unreachable duplicate body after the first `return` is dead code and not
embedded). -/
def get_classification_reasoning (question : String)
    (detected_level : CognitiveLevel) (scores : ScoreMap) : String :=
  let question_lower := lowerStr question.data
  let hit (ws : List String) : Bool := ws.any (fun w => wbSearch question_lower w.data)
  let core :=
    match detected_level with
    | .Remembering =>
      if hit ["who", "what", "when", "where", "list", "name", "define"] then
        "Question asks for direct recall of factual information."
      else
        "Question structure and keywords indicate a request for retrieval of known information."
    | .Understanding =>
      if hit ["explain", "summarize", "in your own words", "main idea"] then
        "Question requires explaining ideas or concepts, not just recalling them."
      else "Question asks for interpretation or demonstration of comprehension."
    | .Applying =>
      if hit ["use", "apply", "solve", "demonstrate", "calculate"] then
        "Question requires using knowledge or a procedure in a specific situation or problem."
      else "Question prompts the application of learned material in a new context."
    | .Analyzing =>
      if hit ["difference", "analyze", "compare", "contrast", "relationship",
          "cause", "effect"] then
        "Question requires breaking down information into parts and examining relationships."
      else
        "Question prompts deconstruction of concepts to find underlying structure or motives."
    | .Evaluating =>
      if hit ["evaluate", "judge", "critique", "justify", "defend", "opinion"] then
        "Question requires making a judgment based on criteria and standards."
      else "Question prompts justification of a decision or critical assessment of a value."
    | .Creating =>
      if hit ["create", "design", "develop", "propose", "invent", "what if"] then
        "Question requires synthesizing elements into a new, coherent whole or proposing original ideas."
      else "Question prompts the generation of new ideas, products, or ways of viewing things."
  let reasoning := "Reasoning: " ++ core
  let sorted_scores :=
    (CognitiveLevel.all.map (fun l => (levelName l, scores.get l))).insertionSort
      (fun a b => a.2 ≥ b.2)
  match sorted_scores with
  | (_, first_score) :: (next_best, second_score) :: _ =>
    if first_score - second_score < 1.0 then
      reasoning ++ " This was a close decision with " ++ sq ++ next_best ++ sq ++ "."
    else reasoning
  | _ => reasoning

/-- `_generate_detailed_explanation` (routes_vialli.py lines 662-682). -/
def generate_detailed_explanation (question : String)
    (detected_level : CognitiveLevel) (selected_level : String) (matches_lv : Bool)
    (scores : ScoreMap) (document_text : Option String) (confidence : ℚ) : String :=
  let base :=
    if matches_lv then
      "✓ CORRECT. The question is classified as " ++ sq ++ levelName detected_level ++
        sq ++ "."
    else
      "✗ INCORRECT. The question is classified as " ++ sq ++ levelName detected_level ++
        sq ++ ", not " ++ sq ++ selected_level ++ sq ++ "."
  let conf_text := " Confidence: " ++ fmt1 (confidence * 100) ++ "%."
  let score_text := " Score breakdown: " ++
    String.intercalate ", "
      (CognitiveLevel.all.map (fun l => levelName l ++ ":" ++ fmt1 (scores.get l))) ++ "."
  let word_count := (pySplit question.data).length
  let quality :=
    if word_count > 6 && containsSub question.data ("?".data) then "Well-structured"
    else "Needs more specificity"
  let quality_text :=
    " Question quality: " ++ quality ++ " (" ++ toString word_count ++ " words)."
  let doc_text :=
    if docTruthy document_text then " Document context was utilized."
    else " No document provided for context."
  let reasoning := get_classification_reasoning question detected_level scores
  base ++ conf_text ++ score_text ++ quality_text ++ doc_text ++ " " ++ reasoning

/-- The per-level scoring loop of lines 440-475, building the six-entry
`level_scores` dict in enumeration order. -/
def baseScores (document_text : Option String) (question_text : String) : ScoreMap :=
  { remembering := scoreLevel document_text question_text .Remembering
    understanding := scoreLevel document_text question_text .Understanding
    applying := scoreLevel document_text question_text .Applying
    analyzing := scoreLevel document_text question_text .Analyzing
    evaluating := scoreLevel document_text question_text .Evaluating
    creating := scoreLevel document_text question_text .Creating }

/-- The `try:` block of `analyze_question_blooms_level` (routes_vialli.py
lines 292-501): score the six levels, apply the special cases, decide the
level and calibrate, validate the confidence, and build the result. -/
def classifyBody (document_text : Option String) (question_text : String)
    (selected_blooms_level : String) : ClassificationResult :=
  let level_scores := handle_special_cases question_text (baseScores document_text question_text)
  let dc := determine_level_with_confidence level_scores
  let detected_level := dc.1
  let confidence := validate_classification dc.2 question_text detected_level document_text
  let matches_lv := levelName detected_level == selected_blooms_level
  let explanation := generate_detailed_explanation question_text detected_level
    selected_blooms_level matches_lv level_scores document_text confidence
  { matches_level := matches_lv
    confidence := pyRound2 confidence
    actual_level := levelName detected_level
    explanation := explanation
    scores := CognitiveLevel.all.map (fun l => (levelName l, pyRound2 (level_scores.get l))) }

/-- The record built by the `except` clause (routes_vialli.py lines 503-511). -/
def handleAnalysisError (message : String) : ClassificationResult :=
  { matches_level := false
    confidence := 0.0
    actual_level := "Error"
    explanation := "Analysis failed: " ++ message
    scores := [] }

/-- The `try/except` wrapper: a failing body is converted to the degraded
result, a successful body is returned as-is.  Exceptions are modelled by
`Except String`. -/
def runAnalysis (body : Except String ClassificationResult) : ClassificationResult :=
  match body with
  | Except.ok r => r
  | Except.error m => handleAnalysisError m

/-- `analyze_question_blooms_level` (routes_vialli.py lines 286-511).  The
embedded pipeline is total, so the body always yields `Except.ok`. -/
def analyze_question_blooms_level (document_text : Option String)
    (question_text : String) (selected_blooms_level : String) : ClassificationResult :=
  runAnalysis (Except.ok (classifyBody document_text question_text selected_blooms_level))

/-! ### Spec-side formulation of the Decision & Confidence Calibrator

The following definitions transcribe the words of spec section 4.5 (and of
claim C4) independently of the code: the winning level is *the first level in
enumeration order whose score equals the maximum*, and `secondHighest` is the
largest value after one copy of the top score is removed.  They exist to be
compared with `determine_level_with_confidence`, which was translated from
the code. -/

/-- The spec's `maxScore` / `top`: the largest of the six scores. -/
def specTop (s : ScoreMap) : ℚ := maxQ s.values

/-- The spec's `argmax(scores)` with "ties broken by enumeration order
Remembering→Creating": the first level in enumeration order attaining the
maximum score. -/
def specArgmax (s : ScoreMap) : CognitiveLevel :=
  (CognitiveLevel.all.find? (fun l => s.get l == specTop s)).getD .Remembering

/-- The spec's `secondHighest`: the maximum after removing one copy of the
top score. -/
def specSecondHighest (s : ScoreMap) : ℚ := maxQ (s.values.erase (specTop s))

/-- Spec section 4.5 assembled: the zero-sum fallback, the enumeration-order
argmax, `baseConfidence = maxScore/totalScore`, the gap boost and the 0.95
cap. -/
def specCalibrator (s : ScoreMap) : CognitiveLevel × ℚ :=
  if s.values.sum = 0 then (.Remembering, 0.5)
  else
    (specArgmax s,
      min (specTop s / s.values.sum +
        (specTop s - specSecondHighest s) / max 1 (specTop s) * 0.3) 0.95)

/-! ### Basic lemmas about the arithmetic helpers -/

lemma pyMax_eq (a b : ℚ) : pyMax a b = max a b := by
  unfold pyMax
  rcases le_total b a with h | h
  · rw [if_pos h, max_eq_left h]
  · rcases eq_or_lt_of_le h with rfl | hlt
    · simp
    · rw [if_neg (not_le.mpr hlt), max_eq_right h]

lemma pyMin_eq (a b : ℚ) : pyMin a b = min a b := by
  unfold pyMin
  rcases le_total a b with h | h
  · rw [if_pos h, min_eq_left h]
  · rcases eq_or_lt_of_le h with rfl | hlt
    · simp
    · rw [if_neg (not_le.mpr hlt), min_eq_right h]

lemma pyRound2_mono {a b : ℚ} (h : a ≤ b) : pyRound2 a ≤ pyRound2 b := by
  unfold pyRound2
  have hf : (⌊a * 100 + 1 / 2⌋ : ℤ) ≤ ⌊b * 100 + 1 / 2⌋ :=
    Int.floor_le_floor (by linarith)
  have hc : ((⌊a * 100 + 1 / 2⌋ : ℤ) : ℚ) ≤ ((⌊b * 100 + 1 / 2⌋ : ℤ) : ℚ) := by
    exact_mod_cast hf
  linarith

lemma pyRound2_nonneg {a : ℚ} (h : 0 ≤ a) : 0 ≤ pyRound2 a := by
  unfold pyRound2
  have hf : (0 : ℤ) ≤ ⌊a * 100 + 1 / 2⌋ := by
    rw [Int.le_floor]
    push_cast
    linarith
  have hc : (0 : ℚ) ≤ ((⌊a * 100 + 1 / 2⌋ : ℤ) : ℚ) := by exact_mod_cast hf
  linarith

lemma pyRound2_tenth : pyRound2 (1 / 10) = 1 / 10 := by decide

lemma pyRound2_max : pyRound2 (19 / 20) = 19 / 20 := by decide

/-! ### Lemmas about `maxQ` -/

lemma foldl_pyMax_eq_foldl_max (t : List ℚ) (init : ℚ) :
    t.foldl pyMax init = t.foldl max init := by
  induction t generalizing init with
  | nil => rfl
  | cons x t ih => simp only [List.foldl_cons, pyMax_eq, ih]

lemma le_foldl_max (t : List ℚ) (init : ℚ) : init ≤ t.foldl max init := by
  induction t generalizing init with
  | nil => exact le_refl _
  | cons x t ih => exact le_trans (le_max_left init x) (ih (max init x))

lemma mem_le_foldl_max {x : ℚ} {t : List ℚ} (init : ℚ) (hx : x ∈ t) :
    x ≤ t.foldl max init := by
  induction t generalizing init with
  | nil => cases hx
  | cons y t ih =>
    rcases List.mem_cons.mp hx with rfl | hmem
    · exact le_trans (le_max_right init x) (le_foldl_max t (max init x))
    · exact ih (max init y) hmem

lemma foldl_max_mem (t : List ℚ) (init : ℚ) :
    t.foldl max init = init ∨ t.foldl max init ∈ t := by
  induction t generalizing init with
  | nil => exact Or.inl rfl
  | cons y t ih =>
    rcases ih (max init y) with h | h
    · rcases le_total init y with hc | hc
      · rw [List.foldl_cons] at *
        rw [h, max_eq_right hc]
        exact Or.inr (List.mem_cons_self _ _)
      · rw [List.foldl_cons] at *
        rw [h, max_eq_left hc]
        exact Or.inl rfl
    · exact Or.inr (List.mem_cons_of_mem _ h)

lemma foldl_max_le {t : List ℚ} {init m : ℚ} (h0 : init ≤ m)
    (h : ∀ x ∈ t, x ≤ m) : t.foldl max init ≤ m := by
  induction t generalizing init with
  | nil => exact h0
  | cons y t ih =>
    exact ih (max_le h0 (h y (List.mem_cons_self _ _)))
      (fun x hx => h x (List.mem_cons_of_mem _ hx))

lemma maxQ_cons (a : ℚ) (t : List ℚ) : maxQ (a :: t) = t.foldl max a := by
  rw [← foldl_pyMax_eq_foldl_max]
  rfl

lemma maxQ_mem {l : List ℚ} (h : l ≠ []) : maxQ l ∈ l := by
  cases l with
  | nil => exact absurd rfl h
  | cons a t =>
    rw [maxQ_cons]
    rcases foldl_max_mem t a with h1 | h1
    · rw [h1]; exact List.mem_cons_self _ _
    · exact List.mem_cons_of_mem _ h1

lemma le_maxQ {x : ℚ} {l : List ℚ} (hx : x ∈ l) : x ≤ maxQ l := by
  cases l with
  | nil => cases hx
  | cons a t =>
    rw [maxQ_cons]
    rcases List.mem_cons.mp hx with rfl | hmem
    · exact le_foldl_max t x
    · exact mem_le_foldl_max a hmem

lemma maxQ_eq_of {l : List ℚ} {m : ℚ} (hm : m ∈ l) (hub : ∀ x ∈ l, x ≤ m) :
    maxQ l = m := by
  have h1 : maxQ l ≤ m := hub _ (maxQ_mem (by rintro rfl; cases hm))
  exact le_antisymm h1 (le_maxQ hm)

lemma maxQ_perm {l l' : List ℚ} (h : l.Perm l') : maxQ l = maxQ l' := by
  rcases l with _ | ⟨a, t⟩
  · rw [List.nil_perm.mp h]
  · have hne' : l' ≠ [] := by
      intro hl
      rw [hl] at h
      simpa using h.length_eq
    have h1 : maxQ l' ∈ a :: t := h.mem_iff.mpr (maxQ_mem hne')
    exact maxQ_eq_of h1 (fun x hx => le_maxQ (h.mem_iff.mp hx))

/-! ### The Python `max(dict, key=dict.get)` returns the first key attaining
the maximum value -/

lemma pickFirst_find {α : Type} (f : α → ℚ) :
    ∀ (t : List α) (h : α),
      (h :: t).find? (fun a => f a == maxQ ((h :: t).map f)) =
        some (t.foldl (fun best x => if f best < f x then x else best) h) := by
  intro t
  induction t with
  | nil =>
    intro h
    simp [List.find?, maxQ_cons]
  | cons x t ih =>
    intro h
    by_cases hc : f h < f x
    · have hM : maxQ ((h :: x :: t).map f) = maxQ ((x :: t).map f) := by
        simp only [List.map_cons, maxQ_cons, List.foldl_cons]
        rw [max_eq_right hc.le]
      have hfx : f x ≤ maxQ ((x :: t).map f) :=
        le_maxQ (by simp)
      have hne : (f h == maxQ ((x :: t).map f)) = false :=
        beq_eq_false_iff_ne.mpr (ne_of_lt (lt_of_lt_of_le hc hfx))
      have hfold : (x :: t).foldl (fun best y => if f best < f y then y else best) h =
          t.foldl (fun best y => if f best < f y then y else best) x := by
        simp only [List.foldl_cons, if_pos hc]
      rw [hfold, hM]
      rw [List.find?_cons, hne]
      exact ih x
    · have hxh : f x ≤ f h := not_lt.mp hc
      have hM : maxQ ((h :: x :: t).map f) = maxQ ((h :: t).map f) := by
        simp only [List.map_cons, maxQ_cons, List.foldl_cons]
        rw [max_eq_left hxh]
      have hfh : f h ≤ maxQ ((h :: t).map f) := le_maxQ (by simp)
      have hfold : (x :: t).foldl (fun best y => if f best < f y then y else best) h =
          t.foldl (fun best y => if f best < f y then y else best) h := by
        simp only [List.foldl_cons, if_neg hc]
      rw [hfold, hM]
      have base := ih h
      by_cases ph : f h = maxQ ((h :: t).map f)
      · have phb : (f h == maxQ ((h :: t).map f)) = true := beq_iff_eq.mpr ph
        rw [List.find?_cons, phb]
        rw [List.find?_cons, phb] at base
        exact base
      · have pxne : f x ≠ maxQ ((h :: t).map f) :=
          fun hx => ph (le_antisymm hfh (hx ▸ hxh))
        have phb : (f h == maxQ ((h :: t).map f)) = false := beq_eq_false_iff_ne.mpr ph
        have pxb : (f x == maxQ ((h :: t).map f)) = false := beq_eq_false_iff_ne.mpr pxne
        rw [List.find?_cons, phb]
        rw [List.find?_cons, phb] at base
        rw [List.find?_cons, pxb]
        exact base

/-! ### The head and second element of the descending sort -/

lemma sorted_shape (l : List ℚ) (hlen : 2 ≤ l.length) :
    ∃ a b rest, l.insertionSort (· ≥ ·) = a :: b :: rest ∧
      a = maxQ l ∧ b = maxQ (l.erase a) := by
  have hperm : (l.insertionSort (· ≥ ·)).Perm l := l.perm_insertionSort (· ≥ ·)
  have hsor : (l.insertionSort (· ≥ ·)).Sorted (· ≥ ·) := l.sorted_insertionSort (· ≥ ·)
  have hlen2 : 2 ≤ (l.insertionSort (· ≥ ·)).length := by
    rw [hperm.length_eq]; exact hlen
  rcases hL : l.insertionSort (· ≥ ·) with _ | ⟨a, _ | ⟨b, rest⟩⟩
  · rw [hL] at hlen2; simp at hlen2
  · rw [hL] at hlen2; simp at hlen2
  · rw [hL] at hperm hsor
    refine ⟨a, b, rest, rfl, ?_, ?_⟩
    · have ha : maxQ l = a := by
        have h1 : a ∈ a :: b :: rest := List.mem_cons_self _ _
        have hub : ∀ x ∈ a :: b :: rest, x ≤ a := by
          intro x hx
          rcases List.mem_cons.mp hx with rfl | hx'
          · exact le_refl x
          · exact List.rel_of_sorted_cons hsor x hx'
        exact (maxQ_perm hperm.symm).trans (maxQ_eq_of h1 hub)
      exact ha.symm
    · have herase : (l.erase a).Perm (b :: rest) := by
        have h1 : ((a :: b :: rest).erase a).Perm (l.erase a) := hperm.erase a
        rw [List.erase_cons_head] at h1
        exact h1.symm
      have hsor' : (b :: rest).Sorted (· ≥ ·) := hsor.of_cons
      have hb : maxQ (b :: rest) = b := by
        refine maxQ_eq_of (List.mem_cons_self _ _) ?_
        intro x hx
        rcases List.mem_cons.mp hx with rfl | hx'
        · exact le_refl x
        · exact List.rel_of_sorted_cons hsor' x hx'
      exact ((maxQ_perm herase).trans hb).symm

lemma argmaxPy_eq_specArgmax (s : ScoreMap) : argmaxPy s = specArgmax s := by
  have h := pickFirst_find s.get
    [CognitiveLevel.Understanding, .Applying, .Analyzing, .Evaluating, .Creating]
    CognitiveLevel.Remembering
  have h2 : CognitiveLevel.all.find? (fun l => s.get l == specTop s) =
      some (argmaxPy s) := h
  unfold specArgmax
  rw [h2]
  rfl

lemma two_le_values_length (s : ScoreMap) : 2 ≤ s.values.length := by
  simp [ScoreMap.values]

/-- C4: the Decision & Confidence Calibrator returns `(Remembering, 0.5)`
when the six scores sum to 0, and otherwise the first level in enumeration
order attaining the maximum score, with confidence
`min(maxScore/totalScore + ((top - secondHighest)/max(1, top)) * 0.3, 0.95)`. -/
theorem c4_calibrator_matches_spec (s : ScoreMap) :
    determine_level_with_confidence s = specCalibrator s := by
  unfold determine_level_with_confidence specCalibrator
  by_cases hz : s.values.sum = 0
  · rw [if_pos hz, if_pos hz]
  · rw [if_neg hz, if_neg hz]
    obtain ⟨a, b, rest, hsort, ha, hb⟩ := sorted_shape s.values (two_le_values_length s)
    simp only [if_neg hz, hsort]
    rw [argmaxPy_eq_specArgmax, pyMin_eq, pyMax_eq, ha, hb, ha]
    rfl

/-! ### Projections of the classifier result -/

lemma analyze_result_eq (d : Option String) (q sel : String) :
    analyze_question_blooms_level d q sel = classifyBody d q sel := rfl

lemma classifyBody_confidence (d : Option String) (q sel : String) :
    (classifyBody d q sel).confidence =
      pyRound2 (validate_classification
        (determine_level_with_confidence (handle_special_cases q (baseScores d q))).2 q
        (determine_level_with_confidence (handle_special_cases q (baseScores d q))).1 d) :=
  rfl

lemma classifyBody_actual (d : Option String) (q sel : String) :
    (classifyBody d q sel).actual_level =
      levelName
        (determine_level_with_confidence (handle_special_cases q (baseScores d q))).1 :=
  rfl

lemma classifyBody_scores (d : Option String) (q sel : String) :
    (classifyBody d q sel).scores =
      CognitiveLevel.all.map (fun l =>
        (levelName l, pyRound2 ((handle_special_cases q (baseScores d q)).get l))) :=
  rfl

lemma levelName_ne_error (l : CognitiveLevel) : levelName l ≠ "Error" := by
  cases l <;> decide

lemma validate_classification_bounds (c : ℚ) (q : String) (l : CognitiveLevel)
    (d : Option String) :
    (0.1 : ℚ) ≤ validate_classification c q l d ∧
      validate_classification c q l d ≤ 0.95 := by
  unfold validate_classification
  constructor
  · simp only [pyMax_eq, pyMin_eq]
    exact le_max_left _ _
  · simp only [pyMax_eq, pyMin_eq]
    exact max_le (by norm_num) (min_le_right _ _)

lemma pyRound2_pt1 : pyRound2 0.1 = 0.1 := by decide

lemma pyRound2_pt95 : pyRound2 0.95 = 0.95 := by decide

/-! ### The claims -/

/-- C5: on every (non-failure) result of `analyze_question_blooms_level` the
confidence lies in the closed interval [0.1, 0.95] (and the result is never
the Error record); on the failure path built by the `except` clause the
confidence is exactly 0.0 with `actualLevel = "Error"`. -/
theorem c5_confidence_range (d : Option String) (q sel m : String) :
    ((0.1 : ℚ) ≤ (analyze_question_blooms_level d q sel).confidence ∧
      (analyze_question_blooms_level d q sel).confidence ≤ 0.95) ∧
    (analyze_question_blooms_level d q sel).actual_level ≠ "Error" ∧
    (runAnalysis (Except.error m)).confidence = 0 ∧
    (runAnalysis (Except.error m)).actual_level = "Error" := by
  refine ⟨?_, ?_, rfl, rfl⟩
  · rw [analyze_result_eq, classifyBody_confidence]
    have hb := validate_classification_bounds
      (determine_level_with_confidence (handle_special_cases q (baseScores d q))).2 q
      (determine_level_with_confidence (handle_special_cases q (baseScores d q))).1 d
    constructor
    · rw [← pyRound2_pt1]
      exact pyRound2_mono hb.1
    · rw [← pyRound2_pt95]
      exact pyRound2_mono hb.2
  · rw [analyze_result_eq, classifyBody_actual]
    exact levelName_ne_error _

/-- C6: the `try/except` wrapper converts any internal failure into exactly
the record `{matchesLevel: false, confidence: 0.0, actualLevel: "Error",
explanation: "Analysis failed: <message>", scores: {}}`, a successful body is
returned unchanged, `analyze_question_blooms_level` is this wrapper around
the (total) pipeline body, and its result is never the Error record. -/
theorem c6_failure_semantics (d : Option String) (q sel m : String)
    (r : ClassificationResult) :
    runAnalysis (Except.error m) =
      { matches_level := false, confidence := 0, actual_level := "Error",
        explanation := "Analysis failed: " ++ m, scores := [] } ∧
    runAnalysis (Except.ok r) = r ∧
    analyze_question_blooms_level d q sel =
      runAnalysis (Except.ok (classifyBody d q sel)) ∧
    (analyze_question_blooms_level d q sel).actual_level ≠ "Error" := by
  refine ⟨rfl, rfl, rfl, ?_⟩
  rw [analyze_result_eq, classifyBody_actual]
  exact levelName_ne_error _

/-- C9: the returned `matchesLevel` is the equality test between the computed
`actualLevel` and the caller-supplied target level; the failure record always
carries `matchesLevel = false`. -/
theorem c9_matches_level (d : Option String) (q sel m : String) :
    (analyze_question_blooms_level d q sel).matches_level =
      ((analyze_question_blooms_level d q sel).actual_level == sel) ∧
    (runAnalysis (Except.error m)).matches_level = false :=
  ⟨rfl, rfl⟩

/-- C3 counterexample: with an empty question and no document the returned
confidence is not 0.5 (the word-count < 4 validator rule has scaled it). -/
theorem c3_counterexample :
    (analyze_question_blooms_level none "" "Remembering").confidence ≠ 1 / 2 := by
  decide

/-- C3 amended: with an empty question and no document the classifier returns
`actualLevel = Remembering` and all six scores 0, but the final confidence is
0.35: the calibrator's zero-sum fallback 0.5 is multiplied by 0.7 by the
Confidence Validator's word-count < 4 rule (0 words). -/
theorem c3_empty_question (sel : String) :
    (analyze_question_blooms_level none "" sel).actual_level = "Remembering" ∧
    (analyze_question_blooms_level none "" sel).confidence = 0.35 ∧
    (analyze_question_blooms_level none "" sel).scores =
      CognitiveLevel.all.map (fun l => (levelName l, 0)) := by
  exact ⟨rfl, rfl, rfl⟩

set_option maxHeartbeats 4000000 in
/-- C1: each of the six canonical exemplar questions, classified with no
document and its expected target level, yields `actualLevel` equal to the
expected level with confidence at least 0.5. -/
theorem c1_canonical_exemplars :
    ((analyze_question_blooms_level none "What is the capital of France?"
        "Remembering").actual_level = "Remembering" ∧
      1 / 2 ≤ (analyze_question_blooms_level none "What is the capital of France?"
        "Remembering").confidence) ∧
    ((analyze_question_blooms_level none "Explain why photosynthesis is important."
        "Understanding").actual_level = "Understanding" ∧
      1 / 2 ≤ (analyze_question_blooms_level none
        "Explain why photosynthesis is important." "Understanding").confidence) ∧
    ((analyze_question_blooms_level none
        "Calculate the area of a circle with radius 5."
        "Applying").actual_level = "Applying" ∧
      1 / 2 ≤ (analyze_question_blooms_level none
        "Calculate the area of a circle with radius 5." "Applying").confidence) ∧
    ((analyze_question_blooms_level none
        "Compare and contrast mitosis and meiosis."
        "Analyzing").actual_level = "Analyzing" ∧
      1 / 2 ≤ (analyze_question_blooms_level none
        "Compare and contrast mitosis and meiosis." "Analyzing").confidence) ∧
    ((analyze_question_blooms_level none
        "Do you agree that the policy was effective? Justify your answer."
        "Evaluating").actual_level = "Evaluating" ∧
      1 / 2 ≤ (analyze_question_blooms_level none
        "Do you agree that the policy was effective? Justify your answer."
        "Evaluating").confidence) ∧
    ((analyze_question_blooms_level none
        "Design a new method to reduce plastic waste."
        "Creating").actual_level = "Creating" ∧
      1 / 2 ≤ (analyze_question_blooms_level none
        "Design a new method to reduce plastic waste." "Creating").confidence) := by
  decide

/-- C10: the structural-complexity markers are detected by substring
containment in the lowercased question, not by word-boundary matching: any
occurrence of a listed marker, also one lying inside a longer word, sets the
corresponding flag, and a set flag contributes its structural bonus. -/
theorem c10_markers_are_substring_matches (q : String) :
    (∀ m ∈ subordinatingWords, containsSub (lowerStr q.data) m.data = true →
      hasSubordination q = true) ∧
    (∀ m ∈ coordinatingWords, containsSub (lowerStr q.data) m.data = true →
      hasCoordination q = true) ∧
    (∀ m ∈ conditionalWords, containsSub (lowerStr q.data) m.data = true →
      hasConditionals q = true) ∧
    (hasSubordination q = true → (0.4 : ℚ) ≤ structuralComplexity q) ∧
    (hasCoordination q = true → (0.3 : ℚ) ≤ structuralComplexity q) ∧
    (hasConditionals q = true → (0.3 : ℚ) ≤ structuralComplexity q) := by
  refine ⟨?_, ?_, ?_, ?_, ?_, ?_⟩
  · intro m hm h
    exact List.any_eq_true.mpr ⟨m, hm, h⟩
  · intro m hm h
    exact List.any_eq_true.mpr ⟨m, hm, h⟩
  · intro m hm h
    exact List.any_eq_true.mpr ⟨m, hm, h⟩
  · intro h
    unfold structuralComplexity
    rw [h]
    simp only [if_true]
    split_ifs <;> norm_num
  · intro h
    unfold structuralComplexity
    rw [h]
    simp only [if_true]
    split_ifs <;> norm_num
  · intro h
    unfold structuralComplexity
    rw [h]
    simp only [if_true]
    split_ifs <;> norm_num

/-- Witness for C10 at a concrete question: "if" occurs only inside "wife",
"and" only inside "sandwich", "should" only inside "shoulder", yet all three
flags are set and the subordination bonus is awarded. -/
theorem c10_witness :
    hasSubordination "Describe the sandwich on his shoulder before his wife arrived" = true ∧
    hasCoordination "Describe the sandwich on his shoulder before his wife arrived" = true ∧
    hasConditionals "Describe the sandwich on his shoulder before his wife arrived" = true ∧
    (0.4 : ℚ) ≤
      structuralComplexity "Describe the sandwich on his shoulder before his wife arrived" := by
  have h := c10_markers_are_substring_matches
    "Describe the sandwich on his shoulder before his wife arrived"
  have hsub := h.1 "if" (by decide) (by decide)
  exact ⟨hsub, h.2.1 "and" (by decide) (by decide),
    h.2.2.1 "should" (by decide) (by decide), h.2.2.2.1 hsub⟩

/-! ### C8: the "what did / what happened" special-case rule -/

lemma matchesPre_of_nullable {r : Rx} (h : nullable r = true) (cs : List Char) :
    matchesPre r cs = true := by
  cases r <;> cases cs <;> simp_all [matchesPre, nullable]

lemma foldl_rderiv_fail (w : List Char) : w.foldl rderiv Rx.fail = Rx.fail := by
  induction w with
  | nil => rfl
  | cons c w ih => simpa [rderiv] using ih

lemma matchesPre_cons {r : Rx} (hr : r ≠ Rx.fail) (c : Char) (cs : List Char) :
    matchesPre r (c :: cs) = (nullable r || matchesPre (rderiv r c) cs) := by
  cases r
  · exact absurd rfl hr
  all_goals rfl

lemma matchesPre_append {w : List Char} :
    ∀ {r : Rx}, nullable (w.foldl rderiv r) = true →
      ∀ (tail : List Char), matchesPre r (w ++ tail) = true := by
  induction w with
  | nil =>
    intro r h tail
    exact matchesPre_of_nullable h tail
  | cons c w ih =>
    intro r h tail
    rcases eq_or_ne r Rx.fail with rfl | hr
    · rw [show (c :: w).foldl rderiv Rx.fail = Rx.fail by
        simpa [rderiv] using foldl_rderiv_fail w] at h
      simp [nullable] at h
    · rw [List.cons_append, matchesPre_cons hr]
      have h' : nullable (w.foldl rderiv (rderiv r c)) = true := by
        simpa using h
      rw [ih h' tail]
      simp

lemma pySearch_whatDid_of_prefix {ql : List Char}
    (h : ("what did".data).isPrefixOf ql = true ∨
         ("what happened".data).isPrefixOf ql = true) :
    pySearch whatDidPat ql = true := by
  rcases h with h | h
  · obtain ⟨t, ht⟩ := List.isPrefixOf_iff_prefix.mp h
    rw [← ht]
    exact matchesPre_append (by decide) t
  · obtain ⟨t, ht⟩ := List.isPrefixOf_iff_prefix.mp h
    rw [← ht]
    exact matchesPre_append (by decide) t

lemma specialRule1_fires {ql : List Char} (hf : pySearch whatDidPat ql = true)
    (s : ScoreMap) :
    specialRule1 ql s =
      { remembering := s.remembering + 2.5
        understanding := pyMax (s.understanding - 1.5) 0
        applying := pyMax (s.applying - 1.5) 0
        analyzing := pyMax (s.analyzing - 1.5) 0
        evaluating := pyMax (s.evaluating - 1.5) 0
        creating := pyMax (s.creating - 1.5) 0 } := by
  unfold specialRule1
  rw [hf]
  simp

lemma specialRuleHow_skips {ql : List Char}
    (hp : ("how ".data).isPrefixOf ql = false) (s : ScoreMap) :
    specialRuleHow ql s = s := by
  unfold specialRuleHow
  rw [hp]
  simp

lemma specialRuleWhy_skips {ql : List Char}
    (hp : ("why ".data).isPrefixOf ql = false) (s : ScoreMap) :
    specialRuleWhy ql s = s := by
  unfold specialRuleWhy
  rw [hp]
  simp

/-- C8: if the lowercased question begins with "what did" or "what happened",
the special-case rule engine adds exactly 2.5 to the Remembering score and
replaces every other level's score `s` by `max (s - 1.5) 0`. -/
theorem c8_what_did_rule (q : String) (s : ScoreMap)
    (h : ("what did".data).isPrefixOf (lowerStr q.data) = true ∨
         ("what happened".data).isPrefixOf (lowerStr q.data) = true) :
    handle_special_cases q s =
      { remembering := s.remembering + 2.5
        understanding := max (s.understanding - 1.5) 0
        applying := max (s.applying - 1.5) 0
        analyzing := max (s.analyzing - 1.5) 0
        evaluating := max (s.evaluating - 1.5) 0
        creating := max (s.creating - 1.5) 0 } := by
  have hfire := pySearch_whatDid_of_prefix h
  have hhow : ("how ".data).isPrefixOf (lowerStr q.data) = false := by
    rcases h with h | h <;>
      obtain ⟨t, ht⟩ := List.isPrefixOf_iff_prefix.mp h <;> rw [← ht] <;> rfl
  have hwhy : ("why ".data).isPrefixOf (lowerStr q.data) = false := by
    rcases h with h | h <;>
      obtain ⟨t, ht⟩ := List.isPrefixOf_iff_prefix.mp h <;> rw [← ht] <;> rfl
  show specialRuleWhy (lowerStr q.data)
      (specialRuleHow (lowerStr q.data) (specialRule1 (lowerStr q.data) s)) = _
  rw [specialRule1_fires hfire, specialRuleHow_skips hhow, specialRuleWhy_skips hwhy]
  simp only [pyMax_eq]

/-- Witness for C8 at a concrete question and score map. -/
theorem c8_witness :
    handle_special_cases "What did the treaty change?"
        { remembering := 2, understanding := 3, applying := 0.5, analyzing := 0,
          evaluating := 7, creating := 1 } =
      { remembering := 2 + 2.5, understanding := max (3 - 1.5) 0,
        applying := max (0.5 - 1.5) 0, analyzing := max (0 - 1.5) 0,
        evaluating := max (7 - 1.5) 0, creating := max (1 - 1.5) 0 } :=
  c8_what_did_rule _ _ (Or.inl (by decide))

/-! ### C7: shape and non-negativity of the scores map -/

lemma scoreLevel_nonneg (d : Option String) (q : String) (l : CognitiveLevel) :
    0 ≤ scoreLevel d q l := by
  unfold scoreLevel
  simp only [pyMax_eq]
  exact le_max_right _ _

lemma baseScores_nonneg (d : Option String) (q : String) (l : CognitiveLevel) :
    0 ≤ (baseScores d q).get l := by
  cases l <;> exact scoreLevel_nonneg d q _

lemma specialRule1_nonneg {ql : List Char} {s : ScoreMap}
    (hs : ∀ l, 0 ≤ s.get l) (l : CognitiveLevel) : 0 ≤ (specialRule1 ql s).get l := by
  unfold specialRule1
  split
  · have h0 := hs CognitiveLevel.Remembering
    simp only [ScoreMap.get] at h0
    cases l <;> simp only [ScoreMap.get, pyMax_eq]
    · linarith
    all_goals exact le_max_right _ _
  · exact hs l

lemma specialRuleHow_nonneg {ql : List Char} {s : ScoreMap}
    (hs : ∀ l, 0 ≤ s.get l) (l : CognitiveLevel) : 0 ≤ (specialRuleHow ql s).get l := by
  have h1 := hs CognitiveLevel.Remembering
  have h2 := hs CognitiveLevel.Understanding
  have h3 := hs CognitiveLevel.Applying
  have h4 := hs CognitiveLevel.Analyzing
  have h5 := hs CognitiveLevel.Evaluating
  have h6 := hs CognitiveLevel.Creating
  simp only [ScoreMap.get] at h1 h2 h3 h4 h5 h6
  unfold specialRuleHow
  split_ifs <;> cases l <;> simp only [ScoreMap.get] <;> linarith

lemma specialRuleWhy_nonneg {ql : List Char} {s : ScoreMap}
    (hs : ∀ l, 0 ≤ s.get l) (l : CognitiveLevel) : 0 ≤ (specialRuleWhy ql s).get l := by
  have h1 := hs CognitiveLevel.Remembering
  have h2 := hs CognitiveLevel.Understanding
  have h3 := hs CognitiveLevel.Applying
  have h4 := hs CognitiveLevel.Analyzing
  have h5 := hs CognitiveLevel.Evaluating
  have h6 := hs CognitiveLevel.Creating
  simp only [ScoreMap.get] at h1 h2 h3 h4 h5 h6
  unfold specialRuleWhy
  split_ifs <;> cases l <;> simp only [ScoreMap.get] <;> linarith

lemma handle_special_cases_nonneg (q : String) {s : ScoreMap}
    (hs : ∀ l, 0 ≤ s.get l) (l : CognitiveLevel) :
    0 ≤ (handle_special_cases q s).get l := by
  show 0 ≤ (specialRuleWhy (lowerStr q.data)
    (specialRuleHow (lowerStr q.data) (specialRule1 (lowerStr q.data) s))).get l
  exact specialRuleWhy_nonneg
    (specialRuleHow_nonneg (specialRule1_nonneg hs)) l

/-- C7 counterexample: the failure-path record as built by the `except`
clause has an empty scores map, not six entries. -/
theorem c7_counterexample :
    (runAnalysis (Except.error "boom")).scores.length ≠ 6 := by decide

/-- C7 amended: every non-failure result carries exactly six score entries,
one per cognitive level in enumeration order, each ≥ 0 (also after the
special-case subtraction of rule 1); the failure-path record's scores map is
empty. -/
theorem c7_scores_shape (d : Option String) (q sel m : String) :
    (analyze_question_blooms_level d q sel).scores.map Prod.fst =
      ["Remembering", "Understanding", "Applying", "Analyzing", "Evaluating",
        "Creating"] ∧
    ((analyze_question_blooms_level d q sel).scores.all
      (fun p => decide (0 ≤ p.2))) = true ∧
    (runAnalysis (Except.error m)).scores = [] := by
  refine ⟨rfl, ?_, rfl⟩
  rw [analyze_result_eq, classifyBody_scores]
  rw [List.all_eq_true]
  intro p hp
  rcases List.mem_map.mp hp with ⟨l, _, rfl⟩
  exact decide_eq_true
    (pyRound2_nonneg (handle_special_cases_nonneg q (baseScores_nonneg d q) l))

/-! ### C2: the citation bonus is driven by the question, not the document -/

lemma adc_analyzing_eq (q : String) (dl : List Char) :
    analyze_document_context q dl CognitiveLevel.Analyzing =
      if citationHit q then (2.5 : ℚ) else 0 := by
  unfold analyze_document_context citationHit
  simp

lemma adc_evaluating_eq (q : String) (dl : List Char) :
    analyze_document_context q dl CognitiveLevel.Evaluating =
      if citationHit q then (2.5 : ℚ) else 0 := by
  unfold analyze_document_context citationHit
  simp

lemma docTruthy_some {d : String} (h : d ≠ "") : docTruthy (some d) = true := by
  simp [docTruthy, h]

lemma scoreLevel_analyzing_doc_irrelevant (q : String) {dA dB : String}
    (hA : dA ≠ "") (hB : dB ≠ "") :
    scoreLevel (some dA) q CognitiveLevel.Analyzing =
      scoreLevel (some dB) q CognitiveLevel.Analyzing := by
  unfold scoreLevel
  simp only [docTruthy_some hA, docTruthy_some hB, if_true, Option.getD_some,
    adc_analyzing_eq]

lemma scoreLevel_evaluating_doc_irrelevant (q : String) {dA dB : String}
    (hA : dA ≠ "") (hB : dB ≠ "") :
    scoreLevel (some dA) q CognitiveLevel.Evaluating =
      scoreLevel (some dB) q CognitiveLevel.Evaluating := by
  unfold scoreLevel
  simp only [docTruthy_some hA, docTruthy_some hB, if_true, Option.getD_some,
    adc_evaluating_eq]

lemma specialRule1_analyzing (ql : List Char) (s : ScoreMap) :
    (specialRule1 ql s).analyzing =
      if pySearch whatDidPat ql then pyMax (s.analyzing - 1.5) 0 else s.analyzing := by
  unfold specialRule1
  split <;> rfl

lemma specialRule1_evaluating (ql : List Char) (s : ScoreMap) :
    (specialRule1 ql s).evaluating =
      if pySearch whatDidPat ql then pyMax (s.evaluating - 1.5) 0 else s.evaluating := by
  unfold specialRule1
  split <;> rfl

lemma specialRuleHow_analyzing (ql : List Char) (s : ScoreMap) :
    (specialRuleHow ql s).analyzing =
      if ("how ".data).isPrefixOf ql then
        if containsSub ql ("how to".data) then s.analyzing
        else if containsSub ql ("how would".data) || containsSub ql ("how could".data) then
          s.analyzing
        else if containsSub ql ("how does".data) || containsSub ql ("how did".data) then
          s.analyzing + 0.5
        else s.analyzing
      else s.analyzing := by
  unfold specialRuleHow
  split_ifs <;> rfl

lemma specialRuleHow_evaluating (ql : List Char) (s : ScoreMap) :
    (specialRuleHow ql s).evaluating = s.evaluating := by
  unfold specialRuleHow
  split_ifs <;> rfl

lemma specialRuleWhy_analyzing (ql : List Char) (s : ScoreMap) :
    (specialRuleWhy ql s).analyzing =
      if ("why ".data).isPrefixOf ql then s.analyzing + 1.5 else s.analyzing := by
  unfold specialRuleWhy
  split <;> rfl

lemma specialRuleWhy_evaluating (ql : List Char) (s : ScoreMap) :
    (specialRuleWhy ql s).evaluating = s.evaluating := by
  unfold specialRuleWhy
  split <;> rfl

lemma hsc_analyzing_congr (q : String) {s t : ScoreMap} (h : s.analyzing = t.analyzing) :
    (handle_special_cases q s).analyzing = (handle_special_cases q t).analyzing := by
  show (specialRuleWhy (lowerStr q.data)
      (specialRuleHow (lowerStr q.data) (specialRule1 (lowerStr q.data) s))).analyzing =
    (specialRuleWhy (lowerStr q.data)
      (specialRuleHow (lowerStr q.data) (specialRule1 (lowerStr q.data) t))).analyzing
  rw [specialRuleWhy_analyzing, specialRuleWhy_analyzing, specialRuleHow_analyzing,
    specialRuleHow_analyzing, specialRule1_analyzing, specialRule1_analyzing, h]

lemma hsc_evaluating_congr (q : String) {s t : ScoreMap}
    (h : s.evaluating = t.evaluating) :
    (handle_special_cases q s).evaluating = (handle_special_cases q t).evaluating := by
  show (specialRuleWhy (lowerStr q.data)
      (specialRuleHow (lowerStr q.data) (specialRule1 (lowerStr q.data) s))).evaluating =
    (specialRuleWhy (lowerStr q.data)
      (specialRuleHow (lowerStr q.data) (specialRule1 (lowerStr q.data) t))).evaluating
  rw [specialRuleWhy_evaluating, specialRuleWhy_evaluating, specialRuleHow_evaluating,
    specialRuleHow_evaluating, specialRule1_evaluating, specialRule1_evaluating, h]

lemma scores_lookup_analyzing (d : Option String) (q sel : String) :
    (analyze_question_blooms_level d q sel).scores.lookup "Analyzing" =
      some (pyRound2 ((handle_special_cases q (baseScores d q)).analyzing)) := by
  rw [analyze_result_eq, classifyBody_scores]
  rfl

lemma scores_lookup_evaluating (d : Option String) (q sel : String) :
    (analyze_question_blooms_level d q sel).scores.lookup "Evaluating" =
      some (pyRound2 ((handle_special_cases q (baseScores d q)).evaluating)) := by
  rw [analyze_result_eq, classifyBody_scores]
  rfl

/-- C2 counterexample: for the fixed question "Compare and contrast mitosis
and meiosis." the Analyzing (and Evaluating) score with a document containing
"according to the text" is not strictly greater than with an
otherwise-identical document lacking the phrase — the citation patterns are
searched in the question, so the two scores are equal. -/
theorem c2_counterexample :
    ¬ (((analyze_question_blooms_level (some "cells divide")
          "Compare and contrast mitosis and meiosis." "Analyzing").scores.lookup
            "Analyzing").getD 0 <
        ((analyze_question_blooms_level (some "according to the text, cells divide")
          "Compare and contrast mitosis and meiosis." "Analyzing").scores.lookup
            "Analyzing").getD 0) ∧
    ¬ (((analyze_question_blooms_level (some "cells divide")
          "Compare and contrast mitosis and meiosis." "Analyzing").scores.lookup
            "Evaluating").getD 0 <
        ((analyze_question_blooms_level (some "according to the text, cells divide")
          "Compare and contrast mitosis and meiosis." "Analyzing").scores.lookup
            "Evaluating").getD 0) := by
  decide

/-- C2 amended: the citation-phrase detection searches the question, not the
document.  For a fixed question the Analyzing and Evaluating entries of the
returned scores map are identical for any two non-empty documents (the
document's content is irrelevant to those levels; only its presence
matters), and when the question itself contains a citation phrase the
document-context signal contributes exactly 2.5 to Analyzing and Evaluating,
whatever the document. -/
theorem c2_citation_bonus_from_question (q sel dA dB d : String)
    (hA : dA ≠ "") (hB : dB ≠ "") :
    ((analyze_question_blooms_level (some dA) q sel).scores.lookup "Analyzing" =
        (analyze_question_blooms_level (some dB) q sel).scores.lookup "Analyzing" ∧
      (analyze_question_blooms_level (some dA) q sel).scores.lookup "Evaluating" =
        (analyze_question_blooms_level (some dB) q sel).scores.lookup "Evaluating") ∧
    (citationHit q = true →
      analyze_document_context q (lowerStr d.data) CognitiveLevel.Analyzing = 2.5 ∧
      analyze_document_context q (lowerStr d.data) CognitiveLevel.Evaluating = 2.5) := by
  refine ⟨⟨?_, ?_⟩, ?_⟩
  · rw [scores_lookup_analyzing, scores_lookup_analyzing]
    exact congrArg (fun x => some (pyRound2 x))
      (hsc_analyzing_congr q (scoreLevel_analyzing_doc_irrelevant q hA hB))
  · rw [scores_lookup_evaluating, scores_lookup_evaluating]
    exact congrArg (fun x => some (pyRound2 x))
      (hsc_evaluating_congr q (scoreLevel_evaluating_doc_irrelevant q hA hB))
  · intro hc
    rw [adc_analyzing_eq, adc_evaluating_eq, hc]
    exact ⟨rfl, rfl⟩

/-- Witness for C2's amended claim at concrete documents and a question that
contains the citation phrase "based on the text". -/
theorem c2_amended_witness :
    ((analyze_question_blooms_level (some "alpha")
        "Based on the text, compare X and Y." "Analyzing").scores.lookup "Analyzing" =
      (analyze_question_blooms_level (some "beta")
        "Based on the text, compare X and Y." "Analyzing").scores.lookup "Analyzing") ∧
    analyze_document_context "Based on the text, compare X and Y."
      (lowerStr "gamma".data) CognitiveLevel.Analyzing = 2.5 := by
  have h := c2_citation_bonus_from_question "Based on the text, compare X and Y."
    "Analyzing" "alpha" "beta" "gamma" (by decide) (by decide)
  exact ⟨h.1.1, (h.2 (by decide)).1⟩

end Blooms
